import Mathlib

/-!
Verification development for the threedistvis-go repository.

The repository has two components:
* `wasm/main.go` — a WebAssembly module that acquires a WebGL context,
  generates 100 random 3D points, uploads them to a GPU buffer, compiles a
  trivial shader pair, and on every animation frame advances a rotation
  angle, builds a 4x4 model-view matrix, uploads it, clears the screen and
  draws the points.
* `main.go` (backend) — a static file server on port 8080.

We embed both shallowly: every external call (WebGL, alert,
requestAnimationFrame, HTTP) becomes a constructor of an event type, and
each Go function becomes a pure Lean function producing the event trace it
would emit.  Scalars are modelled over `ℚ` (the Go code uses float32; the
claims under study are exact at this granularity), and Go's `math.Sin` /
`math.Cos` are abstract function parameters, since their numerics are
external to the repository.
-/

/-- WebGL enum constants used by `wasm/main.go` (`gl.Get(...)` values). -/
inductive GLEnum where
  | COLOR_BUFFER_BIT
  | ARRAY_BUFFER
  | STATIC_DRAW
  | VERTEX_SHADER
  | FRAGMENT_SHADER
  | FLOAT
  | POINTS
deriving DecidableEq, Repr

/-- The two shader source strings of `wasm/main.go`, as opaque tags. -/
inductive ShaderSrc where
  | vertexSrc
  | fragmentSrc
deriving DecidableEq, Repr

/-- Names looked up on the linked program in `wasm/main.go`. -/
inductive ShaderVar where
  | position
  | modelViewProjection
deriving DecidableEq, Repr

/-- One WebGL API call, mirroring each `gl.Call(...)` in `wasm/main.go`. -/
inductive GLCall where
  | clearColor (r g b a : ℚ)
  | clear (mask : GLEnum)
  | createBuffer
  | bindBuffer (target : GLEnum)
  | bufferData (target : GLEnum) (data : List ℚ) (usage : GLEnum)
  | createShader (kind : GLEnum)
  | shaderSource (src : ShaderSrc)
  | compileShader (src : ShaderSrc)
  | createProgram
  | attachShader (src : ShaderSrc)
  | linkProgram
  | useProgram
  | getAttribLocation (name : ShaderVar)
  | enableVertexAttribArray
  | vertexAttribPointer (size : ℤ) (typ : GLEnum) (normalized : Bool)
      (stride offset : ℤ)
  | getUniformLocation (name : ShaderVar)
  | uniformMatrix4fv (loc : ℕ) (transpose : Bool) (value : List ℚ)
  | drawArrays (mode : GLEnum) (first count : ℤ)
deriving DecidableEq, Repr

/-- Messages passed to `js.Global().Call("alert", ...)`. -/
inductive AlertMsg where
  | webglNotSupported
deriving DecidableEq, Repr

/-- One observable action of the WASM module on its JS environment. -/
inductive JSEffect where
  | gl (call : GLCall)
  | alert (msg : AlertMsg)
  | requestAnimationFrame
deriving DecidableEq, Repr

/-- The 300 scalars filled in by the startup loop of `wasm/main.go`:
`points[i] = rand.Float32()*2 - 1`, where `rnd i` is the value of the
`i`-th draw from the random source (Go guarantees it lies in `[0,1)`). -/
def genPoints (rnd : ℕ → ℚ) : List ℚ :=
  (List.range 300).map fun i => rnd i * 2 - 1

/-- The flat scalar buffer read as consecutive `(x, y, z)` triples, the
layout declared by `vertexAttribPointer(positionLoc, 3, FLOAT, false, 0, 0)`. -/
def asTriples : List ℚ → List (ℚ × ℚ × ℚ)
  | x :: y :: z :: rest => (x, y, z) :: asTriples rest
  | _ => []

/-- The variables of `main`'s scope captured (directly or transitively) by
the `render` closure in `wasm/main.go`.  Handles are opaque naturals. -/
structure RenderState where
  angle : ℚ
  points : List ℚ
  buffer : ℕ
  program : ℕ
  positionLoc : ℤ
  mvpLoc : ℕ
deriving DecidableEq, Repr

/-- The fixed per-frame angle increment (`angle += 0.01`). -/
def angleStep : ℚ := 1 / 100

/-- Draw-call arguments of `gl.Call("drawArrays", POINTS, 0, 100)`. -/
def drawFirstArg : ℤ := 0

/-- Number of vertices per draw call in `wasm/main.go`. -/
def drawCountArg : ℤ := 100

/-- Components per vertex declared to `vertexAttribPointer`. -/
def attribSizeArg : ℤ := 3

/-- Stride declared to `vertexAttribPointer` (0 = tightly packed). -/
def attribStrideArg : ℤ := 0

/-- The 4x4 matrix literal built each frame in `wasm/main.go`, flattened
column-major exactly as the Go slice literal:
`{c,0,s,0, 0,1,0,0, -s,0,c,0, 0,0,-2,1}` with `s = sin angle`,
`c = cos angle`. -/
def mvpMatrix (sin cos : ℚ → ℚ) (angle : ℚ) : List ℚ :=
  let s := sin angle
  let c := cos angle
  [c, 0, s, 0,
   0, 1, 0, 0,
   -s, 0, c, 0,
   0, 0, -2, 1]

/-- One invocation of the `render` callback of `wasm/main.go`: increment
the angle, build the matrix, upload it, clear, draw, re-register with
`requestAnimationFrame`.  Returns the updated captured state and the trace
of effects of this frame. -/
def render (sin cos : ℚ → ℚ) (st : RenderState) :
    RenderState × List JSEffect :=
  let angle := st.angle + angleStep
  let mvp := mvpMatrix sin cos angle
  ({ st with angle := angle },
   [JSEffect.gl (GLCall.uniformMatrix4fv st.mvpLoc false mvp),
    JSEffect.gl (GLCall.clear GLEnum.COLOR_BUFFER_BIT),
    JSEffect.gl (GLCall.drawArrays GLEnum.POINTS drawFirstArg drawCountArg),
    JSEffect.requestAnimationFrame])

/-- The state after `n` frame ticks starting from `st`. -/
def iterRender (sin cos : ℚ → ℚ) (st : RenderState) : ℕ → RenderState
  | 0 => st
  | n + 1 => (render sin cos (iterRender sin cos st n)).1

/-- The initialization trace of `wasm/main.go` when the WebGL context was
acquired: every `gl.Call` before the animation loop, in source order,
followed by the initial `requestAnimationFrame` registration. -/
def initEffects (rnd : ℕ → ℚ) : List JSEffect :=
  [JSEffect.gl (GLCall.clearColor 0 0 0 1),
   JSEffect.gl (GLCall.clear GLEnum.COLOR_BUFFER_BIT),
   JSEffect.gl GLCall.createBuffer,
   JSEffect.gl (GLCall.bindBuffer GLEnum.ARRAY_BUFFER),
   JSEffect.gl (GLCall.bufferData GLEnum.ARRAY_BUFFER (genPoints rnd)
      GLEnum.STATIC_DRAW),
   JSEffect.gl (GLCall.createShader GLEnum.VERTEX_SHADER),
   JSEffect.gl (GLCall.shaderSource ShaderSrc.vertexSrc),
   JSEffect.gl (GLCall.compileShader ShaderSrc.vertexSrc),
   JSEffect.gl (GLCall.createShader GLEnum.FRAGMENT_SHADER),
   JSEffect.gl (GLCall.shaderSource ShaderSrc.fragmentSrc),
   JSEffect.gl (GLCall.compileShader ShaderSrc.fragmentSrc),
   JSEffect.gl GLCall.createProgram,
   JSEffect.gl (GLCall.attachShader ShaderSrc.vertexSrc),
   JSEffect.gl (GLCall.attachShader ShaderSrc.fragmentSrc),
   JSEffect.gl GLCall.linkProgram,
   JSEffect.gl GLCall.useProgram,
   JSEffect.gl (GLCall.getAttribLocation ShaderVar.position),
   JSEffect.gl GLCall.enableVertexAttribArray,
   JSEffect.gl (GLCall.vertexAttribPointer attribSizeArg GLEnum.FLOAT false
      attribStrideArg 0),
   JSEffect.gl (GLCall.getUniformLocation ShaderVar.modelViewProjection),
   JSEffect.requestAnimationFrame]

/-- The `main` function of `wasm/main.go` up to the point where it blocks
on its keep-alive channel: if `getContext("webgl")` returned null it alerts
and returns; otherwise it runs the initialization sequence.
`ctxIsNull` is the outcome of the `gl.IsNull()` check. -/
def wasmMain (ctxIsNull : Bool) (rnd : ℕ → ℚ) : List JSEffect :=
  if ctxIsNull then
    [JSEffect.alert AlertMsg.webglNotSupported]
  else
    initEffects rnd

/-- Is this effect an upload to a uniform slot? -/
def isUniformUpload : JSEffect → Bool
  | JSEffect.gl (GLCall.uniformMatrix4fv _ _ _) => true
  | _ => false

/-- Is this effect a color-buffer clear? -/
def isClearCall : JSEffect → Bool
  | JSEffect.gl (GLCall.clear _) => true
  | _ => false

/-- Is this effect a draw call? -/
def isDrawCall : JSEffect → Bool
  | JSEffect.gl (GLCall.drawArrays _ _ _) => true
  | _ => false

/-- Is this effect any WebGL API call at all? -/
def isGLCall : JSEffect → Bool
  | JSEffect.gl _ => true
  | _ => false

/-- Is this effect a user-visible alert? -/
def isAlertCall : JSEffect → Bool
  | JSEffect.alert _ => true
  | _ => false

/-- The matrix payload of the first uniform upload in a trace, if any. -/
def uniformPayload : List JSEffect → Option (List ℚ)
  | [] => none
  | JSEffect.gl (GLCall.uniformMatrix4fv _ _ m) :: _ => some m
  | _ :: rest => uniformPayload rest

/-- Patterns registered with `http.Handle` in the backend `main.go`. -/
inductive HandlerPat where
  | root
deriving DecidableEq, Repr

/-- Console messages printed by the backend `main.go`. -/
inductive ServerMsg where
  | serverRunning
  | serverError
deriving DecidableEq, Repr

/-- One observable action of the backend server process. -/
inductive ServerEvent where
  | registerHandler (pat : HandlerPat)
  | println (msg : ServerMsg)
  | listenAndServe (port : ℕ)
deriving DecidableEq, Repr

/-- The TCP port of the `":8080"` address literal in the backend. -/
def serverPort : ℕ := 8080

/-- The backend `main`: register the `wasm` file server under `"/"`, print
the startup line, call `http.ListenAndServe(":8080", nil)`.  On success
that call blocks forever, so the trace ends at it; if it returns an error
(`listenFails`), the error is printed and `main` returns, terminating the
process — the print is the final event. -/
def serverMain (listenFails : Bool) : List ServerEvent :=
  [ServerEvent.registerHandler HandlerPat.root,
   ServerEvent.println ServerMsg.serverRunning,
   ServerEvent.listenAndServe serverPort] ++
  (if listenFails then [ServerEvent.println ServerMsg.serverError] else [])

/-- Is this server event the listen/bind call? -/
def isListenCall : ServerEvent → Bool
  | ServerEvent.listenAndServe _ => true
  | _ => false

/-- Is this server event a handler registration? -/
def isRegisterCall : ServerEvent → Bool
  | ServerEvent.registerHandler _ => true
  | _ => false

/-- A concrete captured state used to instantiate general theorems. -/
def stA : RenderState :=
  { angle := 0, points := [], buffer := 0, program := 0,
    positionLoc := 0, mvpLoc := 0 }

/-- A second concrete captured state, differing from `stA` everywhere but
in the angle. -/
def stB : RenderState :=
  { angle := 0, points := [1, 2, 3], buffer := 1, program := 2,
    positionLoc := 3, mvpLoc := 4 }

/-- Length of `asTriples` on a list whose length is a multiple of 3. -/
theorem asTriples_length :
    ∀ (n : ℕ) (l : List ℚ), l.length = 3 * n → (asTriples l).length = n := by
  intro n
  induction n with
  | zero =>
      intro l h
      rw [Nat.mul_zero] at h
      rw [List.length_eq_zero.mp h]
      rfl
  | succ n ih =>
      intro l h
      match l with
      | [] => simp at h
      | [x] => simp at h; omega
      | [x, y] => simp at h; omega
      | x :: y :: z :: rest =>
          have hr : rest.length = 3 * n := by
            simp [List.length_cons] at h
            omega
          have hu : asTriples (x :: y :: z :: rest)
              = (x, y, z) :: asTriples rest := rfl
          rw [hu, List.length_cons, ih rest hr]

/-- C1: every invocation of the per-frame step emits exactly one uniform
matrix upload, exactly one color-buffer clear, and exactly one draw call —
that draw renders 100 unconnected point primitives — and they occur in the
order uniform upload (position 0), clear (position 1), draw (position 2). -/
theorem renderFrameTraceShape (sin cos : ℚ → ℚ) (st : RenderState) :
    ((render sin cos st).2.countP isUniformUpload = 1) ∧
    ((render sin cos st).2.countP isClearCall = 1) ∧
    ((render sin cos st).2.countP isDrawCall = 1) ∧
    (render sin cos st).2.get? 0 =
      some (JSEffect.gl (GLCall.uniformMatrix4fv st.mvpLoc false
        (mvpMatrix sin cos (st.angle + angleStep)))) ∧
    (render sin cos st).2.get? 1 =
      some (JSEffect.gl (GLCall.clear GLEnum.COLOR_BUFFER_BIT)) ∧
    (render sin cos st).2.get? 2 =
      some (JSEffect.gl (GLCall.drawArrays GLEnum.POINTS 0 100)) :=
  ⟨rfl, rfl, rfl, rfl, rfl, rfl⟩

/-- C2: for every angle, the matrix built (and uploaded) by the per-frame
step has Y-scale entry 1 (flat index 5), Z-translation entry -2 (flat
index 14), and X-Z rotation entries cos/sin of the angle at flat indices
0, 2, 8, 10 — and the per-frame step uploads exactly this matrix for the
freshly advanced angle. -/
theorem mvpMatrixEntries (sin cos : ℚ → ℚ) (angle : ℚ) (st : RenderState) :
    ((mvpMatrix sin cos angle).get? 5 = some 1) ∧
    ((mvpMatrix sin cos angle).get? 14 = some (-2)) ∧
    ((mvpMatrix sin cos angle).get? 0 = some (cos angle)) ∧
    ((mvpMatrix sin cos angle).get? 2 = some (sin angle)) ∧
    ((mvpMatrix sin cos angle).get? 8 = some (-(sin angle))) ∧
    ((mvpMatrix sin cos angle).get? 10 = some (cos angle)) ∧
    uniformPayload (render sin cos st).2 =
      some (mvpMatrix sin cos (st.angle + angleStep)) :=
  ⟨rfl, rfl, rfl, rfl, rfl, rfl, rfl⟩

/-- C3: the uploaded view matrix is a pure deterministic function of the
rotation angle — two frame steps from states agreeing on the angle (all
other captured state may differ) upload identical matrices. -/
theorem viewMatrixDeterministic (sin cos : ℚ → ℚ) (st₁ st₂ : RenderState)
    (h : st₁.angle = st₂.angle) :
    uniformPayload (render sin cos st₁).2 =
      uniformPayload (render sin cos st₂).2 := by
  simp only [render, uniformPayload, h]

/-- Instantiation of `viewMatrixDeterministic` at two concrete states that
share only their angle. -/
theorem viewMatrixDeterministic_witness :
    stA.angle = stB.angle ∧
    uniformPayload (render (fun _ => 0) (fun _ => 1) stA).2 =
      uniformPayload (render (fun _ => 0) (fun _ => 1) stB).2 :=
  ⟨rfl, viewMatrixDeterministic (fun _ => 0) (fun _ => 1) stA stB rfl⟩

/-- C4: starting from angle 0, each frame tick adds exactly `angleStep`
(0.01 rad), so after `n` ticks the angle is `n * 0.01` (exact in the
rational model; the float32 code matches up to accumulation error). -/
theorem angleAfterFrames (sin cos : ℚ → ℚ) (st : RenderState) (n : ℕ)
    (h : st.angle = 0) :
    (iterRender sin cos st n).angle = n * angleStep := by
  induction n with
  | zero => simpa [iterRender]
  | succ n ih =>
      have hs : (iterRender sin cos st (n + 1)).angle
          = (iterRender sin cos st n).angle + angleStep := rfl
      rw [hs, ih]
      push_cast
      ring

/-- Instantiation of `angleAfterFrames`: three ticks from the zero state. -/
theorem angleAfterFrames_witness :
    stA.angle = 0 ∧
    (iterRender (fun _ => 0) (fun _ => 0) stA 3).angle = 3 * angleStep :=
  ⟨rfl, angleAfterFrames (fun _ => 0) (fun _ => 0) stA 3 rfl⟩

/-- C5: every scalar produced by the startup transform `v * 2 - 1` from a
source value `v ∈ [0, 1)` lies in `[-1, 1)`. -/
theorem pointCoordsInRange (rnd : ℕ → ℚ)
    (hr : ∀ i, 0 ≤ rnd i ∧ rnd i < 1) (x : ℚ) (hx : x ∈ genPoints rnd) :
    -1 ≤ x ∧ x < 1 := by
  simp only [genPoints, List.mem_map, List.mem_range] at hx
  obtain ⟨i, -, rfl⟩ := hx
  obtain ⟨h0, h1⟩ := hr i
  constructor <;> linarith

/-- Instantiation of `pointCoordsInRange` at the all-zero source, whose
generated coordinates all equal -1. -/
theorem pointCoordsInRange_witness :
    (-1 : ℚ) ∈ genPoints (fun _ => 0) ∧ (-1 ≤ (-1 : ℚ) ∧ (-1 : ℚ) < 1) := by
  have hm : (-1 : ℚ) ∈ genPoints (fun _ => 0) :=
    List.mem_map.mpr ⟨0, List.mem_range.mpr (by norm_num), by norm_num⟩
  exact ⟨hm, pointCoordsInRange (fun _ => 0)
    (fun _ => ⟨le_refl 0, by norm_num⟩) (-1) hm⟩

/-- C6: whatever the random draws, the generated point set holds exactly
300 scalars, i.e. exactly 100 consecutive (x, y, z) triples. -/
theorem pointSetSize (rnd : ℕ → ℚ) :
    (genPoints rnd).length = 300 ∧
    (asTriples (genPoints rnd)).length = 100 := by
  have h : (genPoints rnd).length = 300 := by simp [genPoints]
  exact ⟨h, asTriples_length 100 _ (by rw [h])⟩

/-- C7: when the context is null the module's whole trace is the single
blocking alert — one alert, zero WebGL calls, no retry, nothing after it —
and on the success path no alert is ever raised (the null context is the
only failure checked). -/
theorem contextFailureFailFast (rnd : ℕ → ℚ) :
    wasmMain true rnd = [JSEffect.alert AlertMsg.webglNotSupported] ∧
    (wasmMain true rnd).countP isAlertCall = 1 ∧
    (wasmMain true rnd).countP isGLCall = 0 ∧
    (wasmMain false rnd).countP isAlertCall = 0 :=
  ⟨rfl, rfl, rfl, rfl⟩

/-- C8: a frame tick rewrites only the rotation scalar: the point set, the
buffer handle, the program handle and both locations are returned
unchanged, and the angle moves by exactly one step. -/
theorem renderMutatesOnlyAngle (sin cos : ℚ → ℚ) (st : RenderState) :
    ((render sin cos st).1.angle = st.angle + angleStep) ∧
    ((render sin cos st).1.points = st.points) ∧
    ((render sin cos st).1.buffer = st.buffer) ∧
    ((render sin cos st).1.program = st.program) ∧
    ((render sin cos st).1.positionLoc = st.positionLoc) ∧
    ((render sin cos st).1.mvpLoc = st.mvpLoc) :=
  ⟨rfl, rfl, rfl, rfl, rfl, rfl⟩

/-- C9: the backend registers the root file handler (position 0) before
the single listen call on port 8080 (position 2); when the listen call
returns an error the trace ends with the error report — the final event —
after which `main` returns and the process terminates. -/
theorem serverBindAndFail (b : Bool) :
    ((serverMain b).countP isListenCall = 1) ∧
    ((serverMain b).get? 0 =
      some (ServerEvent.registerHandler HandlerPat.root)) ∧
    ((serverMain b).get? 2 = some (ServerEvent.listenAndServe 8080)) ∧
    serverPort = 8080 ∧
    (serverMain true).getLast? = some (ServerEvent.println ServerMsg.serverError) ∧
    serverMain true =
      [ServerEvent.registerHandler HandlerPat.root,
       ServerEvent.println ServerMsg.serverRunning,
       ServerEvent.listenAndServe 8080,
       ServerEvent.println ServerMsg.serverError] := by
  cases b <;> exact ⟨rfl, rfl, rfl, rfl, rfl, rfl⟩

/-- C10: the uploaded buffer holds 300 scalars, the bound layout is 3
components per vertex with zero stride, and the draw covers vertices 0
through 99, so every component index any drawn vertex fetches is below the
buffer length — no fetch past the buffer's end. -/
theorem attribFetchInBounds (rnd : ℕ → ℚ) (sin cos : ℚ → ℚ)
    (st : RenderState) (v c : ℕ)
    (hv : v < drawCountArg.toNat) (hc : c < attribSizeArg.toNat) :
    JSEffect.gl (GLCall.vertexAttribPointer attribSizeArg GLEnum.FLOAT false
      attribStrideArg 0) ∈ wasmMain false rnd ∧
    JSEffect.gl (GLCall.drawArrays GLEnum.POINTS drawFirstArg drawCountArg)
      ∈ (render sin cos st).2 ∧
    (drawFirstArg.toNat + v) * attribSizeArg.toNat + c <
      (genPoints rnd).length := by
  refine ⟨by simp [wasmMain, initEffects], by simp [render], ?_⟩
  have hlen : (genPoints rnd).length = 300 := by simp [genPoints]
  have h1 : drawCountArg.toNat = 100 := rfl
  have h2 : attribSizeArg.toNat = 3 := rfl
  have h3 : drawFirstArg.toNat = 0 := rfl
  rw [hlen, h2, h3]
  rw [h1] at hv
  rw [h2] at hc
  omega

/-- Instantiation of `attribFetchInBounds` at the last vertex (99) and
last component (2): fetch index 299 < 300. -/
theorem attribFetchInBounds_witness :
    99 < drawCountArg.toNat ∧ 2 < attribSizeArg.toNat ∧
    (JSEffect.gl (GLCall.vertexAttribPointer attribSizeArg GLEnum.FLOAT false
        attribStrideArg 0) ∈ wasmMain false (fun _ => 0) ∧
     JSEffect.gl (GLCall.drawArrays GLEnum.POINTS drawFirstArg drawCountArg)
        ∈ (render (fun _ => 0) (fun _ => 0) stA).2 ∧
     (drawFirstArg.toNat + 99) * attribSizeArg.toNat + 2 <
       (genPoints (fun _ => 0)).length) :=
  ⟨by decide, by decide,
   attribFetchInBounds (fun _ => 0) (fun _ => 0) (fun _ => 0) stA 99 2
     (by decide) (by decide)⟩
